import Mathlib

/- Verification of the statistical control and variance detection engine of the
   workforce analytics repository (src/src/analysis/statistics.py, variance.py,
   trends.py, src/src/reporting/exceptions.py, src/src/utils/date_calculator.py,
   weekday_converter.py).

   Modelling conventions:
   * float values are modelled as rationals;
   * a missing value (Python None, or a float NaN produced by pandas on empty
     input) is modelled as the Option value none, as noted at each use site;
   * the two library routines whose results are irrational (the Shapiro-Wilk
     p-value, the sample standard deviation, the linear-regression statistics)
     are abstracted as parameters, and the theorems quantify over them. -/

namespace Workforce

/-- Python round(q) to an integer: round half to even. -/
def pyRoundInt (q : ℚ) : ℤ :=
  let f := Rat.floor q
  let r := q - (f : ℚ)
  if r < 1/2 then f
  else if 1/2 < r then f + 1
  else if f % 2 = 0 then f else f + 1

/-- Python round(q, 2). -/
def round2 (q : ℚ) : ℚ := (pyRoundInt (q * 100) : ℚ) / 100

/-- Python round(q, 4). -/
def round4 (q : ℚ) : ℚ := (pyRoundInt (q * 10000) : ℚ) / 10000

/-- Series.dropna on a numeric column whose null entries are modelled by none. -/
def dropna (l : List (Option ℚ)) : List ℚ := l.filterMap id

/-- Series.mean of a null-free column (sum divided by count). -/
def meanQ (l : List ℚ) : ℚ := l.sum / l.length

/-- Series.mean with pandas null skipping: none models the NaN that pandas
    yields when no non-null value exists. -/
def meanO (l : List (Option ℚ)) : Option ℚ :=
  if dropna l = [] then none else some (meanQ (dropna l))

/-- Series.max of a nonempty column (the value for an empty column is a
    don't-care default, never used on the paths below). -/
def maxQ : List ℚ → ℚ
  | [] => 0
  | x :: xs => xs.foldl max x

/-- Series.min of a nonempty column. -/
def minQ : List ℚ → ℚ
  | [] => 0
  | x :: xs => xs.foldl min x

/-- Series.median of a nonempty column: the middle of the sorted values, or
    the average of the two middle values when the length is even. -/
def medianNE (l : List ℚ) : ℚ :=
  let s := l.insertionSort (· ≤ ·)
  let n := s.length
  if n % 2 = 1 then s.getD (n / 2) 0
  else (s.getD (n / 2 - 1) 0 + s.getD (n / 2) 0) / 2

/-- Series.median; none models the NaN pandas yields on an empty column. -/
def medianO (l : List ℚ) : Option ℚ :=
  if l = [] then none else some (medianNE l)

/- ---------------------------------------------------------------------------
   src/src/analysis/statistics.py
   --------------------------------------------------------------------------- -/

/-- Status message returned by test_normality. -/
inductive NormStatus
  | lacksData
  | zeroRange
  | normal
  | notNormal
  | testFailed
deriving DecidableEq, Repr

/-- config/constants.py ControlMethod. -/
inductive CtrlMethod
  | normal
  | mad
deriving DecidableEq, Repr

/-- Abstraction of the irrational-valued library statistics used by
    statistics.py: the Shapiro-Wilk p-value (none models an exception raised
    by scipy and caught by test_normality) and the sample standard deviation
    computed by pandas. The theorems below hold for every backend. -/
structure StatsBackend where
  shapiro : List ℚ → Option ℚ
  std : List ℚ → ℚ

def MIN_SAMPLE_SIZE_NORMALITY : ℕ := 3
def MAX_SAMPLE_SIZE_NORMALITY : ℕ := 5000
def NORMALITY_P_VALUE_THRESHOLD : ℚ := 1/20
def CONTROL_LIMIT_MULTIPLIER : ℚ := 3

/-- statistics.py test_normality: returns (is_normal, p_value, status). -/
def test_normality (B : StatsBackend) (data : List (Option ℚ)) :
    Bool × ℚ × NormStatus :=
  let clean := dropna data
  let n := clean.length
  if n < MIN_SAMPLE_SIZE_NORMALITY then (false, 0, .lacksData)
  else if maxQ clean - minQ clean = 0 then (false, 0, .zeroRange)
  else
    let clean2 := if MAX_SAMPLE_SIZE_NORMALITY < n then
        clean.drop (n - MAX_SAMPLE_SIZE_NORMALITY) else clean
    match B.shapiro clean2 with
    | none => (false, 0, .testFailed)
    | some p =>
      if NORMALITY_P_VALUE_THRESHOLD < p then (true, p, .normal)
      else (false, p, .notNormal)

/-- The dictionary returned by calculate_control_limits. A none field models
    the float NaN that propagates when the dropped-null sample is empty. -/
structure ControlLimits where
  mean : Option ℚ
  ucl : Option ℚ
  lcl : Option ℚ
  std : Option ℚ
  method : CtrlMethod
  isNormal : Bool
  pValue : ℚ
deriving DecidableEq, Repr

/-- statistics.py calculate_control_limits. In the robust branch, pandas
    median and MAD of an empty dropped-null sample are NaN, which then flows
    through max( , 0) and round unchanged; the none branch of medianO models
    exactly that propagation. -/
def calculate_control_limits (B : StatsBackend) (data : List (Option ℚ)) :
    ControlLimits :=
  if data = [] then
    { mean := some 0, ucl := some 0, lcl := some 0, std := some 0,
      method := .normal, isNormal := false, pValue := 0 }
  else
    let clean := dropna data
    let t := test_normality B (clean.map some)
    if t.1 then
      let meanVal := meanQ clean
      let stdVal := B.std clean
      let u := meanVal + CONTROL_LIMIT_MULTIPLIER * stdVal
      let lo := max (meanVal - CONTROL_LIMIT_MULTIPLIER * stdVal) 0
      { mean := some (round2 meanVal), ucl := some (round2 u),
        lcl := some (round2 lo), std := some (round2 stdVal),
        method := .normal, isNormal := true, pValue := round4 t.2.1 }
    else
      match medianO clean with
      | none =>
        { mean := none, ucl := none, lcl := none, std := none,
          method := .mad, isNormal := false, pValue := round4 t.2.1 }
      | some medianVal =>
        let madVal := medianNE (clean.map fun x => |x - medianVal|)
        let u := medianVal + CONTROL_LIMIT_MULTIPLIER * madVal
        let lo := max (medianVal - CONTROL_LIMIT_MULTIPLIER * madVal) 0
        { mean := some (round2 medianVal), ucl := some (round2 u),
          lcl := some (round2 lo), std := some (round2 madVal),
          method := .mad, isNormal := false, pValue := round4 t.2.1 }

/-- A backend with concrete values, used to evaluate the engine at concrete
    inputs. -/
def trivialStats : StatsBackend := ⟨fun _ => some 0, fun _ => 0⟩

/- Helper lemmas about the numeric primitives. -/

theorem pyRoundInt_nonneg {q : ℚ} (h : 0 ≤ q) : 0 ≤ pyRoundInt q := by
  unfold pyRoundInt
  have hf : (0 : ℤ) ≤ Rat.floor q := Rat.le_floor.mpr (by exact_mod_cast h)
  dsimp only
  split_ifs <;> omega

theorem round2_nonneg {q : ℚ} (h : 0 ≤ q) : 0 ≤ round2 q := by
  unfold round2
  have : (0 : ℚ) ≤ (pyRoundInt (q * 100) : ℚ) := by
    exact_mod_cast pyRoundInt_nonneg (by positivity)
  positivity

theorem ratFloor_eq_floor (q : ℚ) : Rat.floor q = ⌊q⌋ := by
  rw [Rat.floor_def', Rat.floor_def]

theorem pyRoundInt_intCast (m : ℤ) : pyRoundInt (m : ℚ) = m := by
  unfold pyRoundInt
  rw [ratFloor_eq_floor, Int.floor_intCast]
  norm_num

theorem round2_intCast (m : ℤ) : round2 (m : ℚ) = m := by
  unfold round2
  have h : (m : ℚ) * 100 = ((m * 100 : ℤ) : ℚ) := by push_cast; ring
  rw [h, pyRoundInt_intCast]
  push_cast
  ring

theorem round2_zero : round2 0 = 0 := by
  simpa using round2_intCast 0

theorem round4_zero : round4 0 = 0 := by
  unfold round4
  rw [zero_mul, show ((0 : ℚ) = ((0 : ℤ) : ℚ)) by norm_num, pyRoundInt_intCast]
  norm_num

theorem dropna_map_some (l : List ℚ) : dropna (l.map some) = l := by
  simp [dropna]

theorem foldl_max_const {v : ℚ} :
    ∀ l : List ℚ, (∀ x ∈ l, x = v) → l.foldl max v = v
  | [], _ => rfl
  | x :: xs, h => by
    rw [List.foldl_cons, h x (by simp), max_self]
    exact foldl_max_const xs fun y hy => h y (by simp [hy])

theorem foldl_min_const {v : ℚ} :
    ∀ l : List ℚ, (∀ x ∈ l, x = v) → l.foldl min v = v
  | [], _ => rfl
  | x :: xs, h => by
    rw [List.foldl_cons, h x (by simp), min_self]
    exact foldl_min_const xs fun y hy => h y (by simp [hy])

theorem maxQ_const {l : List ℚ} {v : ℚ} (hne : l ≠ [])
    (h : ∀ x ∈ l, x = v) : maxQ l = v := by
  cases l with
  | nil => exact absurd rfl hne
  | cons x xs =>
    have hx : x = v := h x (by simp)
    subst hx
    exact foldl_max_const xs fun y hy => h y (by simp [hy])

theorem minQ_const {l : List ℚ} {v : ℚ} (hne : l ≠ [])
    (h : ∀ x ∈ l, x = v) : minQ l = v := by
  cases l with
  | nil => exact absurd rfl hne
  | cons x xs =>
    have hx : x = v := h x (by simp)
    subst hx
    exact foldl_min_const xs fun y hy => h y (by simp [hy])

theorem medianNE_const {l : List ℚ} {v : ℚ} (hne : l ≠ [])
    (h : ∀ x ∈ l, x = v) : medianNE l = v := by
  unfold medianNE
  have hperm := List.perm_insertionSort (fun a b : ℚ => a ≤ b) l
  have hmem : ∀ x ∈ l.insertionSort (· ≤ ·), x = v := fun x hx =>
    h x (hperm.mem_iff.mp hx)
  have hlen : (l.insertionSort (· ≤ ·)).length = l.length := hperm.length_eq
  have hpos : 0 < l.length := List.length_pos.mpr hne
  have hget : ∀ i : ℕ, i < (l.insertionSort (· ≤ ·)).length →
      (l.insertionSort (· ≤ ·)).getD i 0 = v := by
    intro i hi
    rw [List.getD_eq_getElem _ _ hi]
    exact hmem _ (List.getElem_mem hi)
  dsimp only
  split_ifs with hodd
  · exact hget _ (by omega)
  · rw [hget _ (by omega), hget _ (by omega)]
    ring

/- ---------------------------------------------------------------------------
   Claim C1 - the lower control limit is nonnegative
   --------------------------------------------------------------------------- -/

/-- Claim C1 (amended): for every stats backend and every input sample that is
    empty or contains at least one non-null value, the lower control limit
    produced by calculate_control_limits is a real value that is greater than
    or equal to 0 (in particular when center minus 3 times dispersion is
    negative, and in particular for samples containing nulls). -/
theorem C1_lcl_nonneg (B : StatsBackend) (data : List (Option ℚ))
    (h : data = [] ∨ dropna data ≠ []) :
    ∃ v, (calculate_control_limits B data).lcl = some v ∧ 0 ≤ v := by
  by_cases hd : data = []
  · subst hd
    exact ⟨0, rfl, le_refl 0⟩
  · have hclean : dropna data ≠ [] := h.resolve_left hd
    unfold calculate_control_limits
    rw [if_neg hd]
    dsimp only
    split_ifs with hn
    · exact ⟨_, rfl, round2_nonneg (le_max_right _ _)⟩
    · rw [medianO, if_neg hclean]
      exact ⟨_, rfl, round2_nonneg (le_max_right _ _)⟩

/-- Witness for C1 at the concrete sample [5]. -/
theorem C1_witness :
    ∃ v, (calculate_control_limits trivialStats [some 5]).lcl = some v ∧
      0 ≤ v :=
  C1_lcl_nonneg trivialStats [some 5] (Or.inr (by decide))

/-- Counterexample to C1 as stated: the singleton all-null sample is not empty,
    so it passes the empty-input guard, but its dropped-null version is empty;
    pandas median and MAD of an empty series are NaN, so the returned lower
    control limit is NaN (modelled as none), not a value greater than or equal
    to 0. -/
theorem C1_counterexample :
    (calculate_control_limits trivialStats [none]).lcl = none := by decide

/- ---------------------------------------------------------------------------
   Claim C2 - zero-range samples
   --------------------------------------------------------------------------- -/

/-- On a constant sample of size at least 3, test_normality reports the
    zero-range status. -/
theorem test_normality_const (B : StatsBackend) (l : List ℚ) (v : ℚ)
    (hlen : 3 ≤ l.length) (hall : ∀ x ∈ l, x = v) :
    test_normality B (l.map some) = (false, 0, .zeroRange) := by
  have hne : l ≠ [] := by
    intro h; rw [h] at hlen; simp at hlen
  unfold test_normality
  rw [dropna_map_some l]
  have hnot : ¬ l.length < MIN_SAMPLE_SIZE_NORMALITY := by
    unfold MIN_SAMPLE_SIZE_NORMALITY; omega
  rw [if_neg hnot]
  rw [maxQ_const hne hall, minQ_const hne hall, sub_self]
  simp

/-- On a constant sample of size at least 3, calculate_control_limits falls
    back to the robust method, the MAD is 0, center and upper limit are the
    rounded constant, and the lower limit is the rounded max of the constant
    and 0. -/
theorem calc_limits_const (B : StatsBackend) (l : List ℚ) (v : ℚ)
    (hlen : 3 ≤ l.length) (hall : ∀ x ∈ l, x = v) :
    calculate_control_limits B (l.map some) =
      { mean := some (round2 v), ucl := some (round2 v),
        lcl := some (round2 (max v 0)), std := some 0,
        method := .mad, isNormal := false, pValue := 0 } := by
  have hne : l ≠ [] := by
    intro h; rw [h] at hlen; simp at hlen
  have hdrop : dropna (l.map some) = l := dropna_map_some l
  have htest := test_normality_const B l v hlen hall
  have hmed : medianNE l = v := medianNE_const hne hall
  have hmad : medianNE (l.map fun x => |x - v|) = 0 := by
    apply medianNE_const
    · simp [hne]
    · intro x hx
      rcases List.mem_map.mp hx with ⟨y, hy, hxy⟩
      rw [← hxy, hall y hy, sub_self, abs_zero]
  have hdata : l.map some ≠ [] := by
    simp [hne]
  unfold calculate_control_limits
  rw [if_neg hdata]
  dsimp only
  rw [hdrop, htest]
  dsimp only
  rw [if_neg Bool.false_ne_true]
  rw [medianO, if_neg hne, hmed]
  dsimp only
  rw [hmad, mul_zero, add_zero, sub_zero, round2_zero, round4_zero]

/-- Claim C2 (amended): for every sample of at least 3 nonnegative values all
    equal to v (zero range), test_normality reports the zero-range status with
    p-value 0.0 and does not classify the sample as normal, and
    calculate_control_limits uses the robust method with dispersion (MAD)
    equal to 0, so the returned upper control limit, lower control limit and
    center are all equal (to the value rounded to 2 decimals).
    Nonnegativity is required: for a constant negative sample the lower limit
    is floored to 0 while center and upper limit stay negative. -/
theorem C2_zero_range (B : StatsBackend) (l : List ℚ) (v : ℚ)
    (hlen : 3 ≤ l.length) (hall : ∀ x ∈ l, x = v) (hv : 0 ≤ v) :
    test_normality B (l.map some) = (false, 0, .zeroRange) ∧
    (calculate_control_limits B (l.map some)).method = .mad ∧
    (calculate_control_limits B (l.map some)).isNormal = false ∧
    (calculate_control_limits B (l.map some)).std = some 0 ∧
    (calculate_control_limits B (l.map some)).mean = some (round2 v) ∧
    (calculate_control_limits B (l.map some)).ucl = some (round2 v) ∧
    (calculate_control_limits B (l.map some)).lcl = some (round2 v) := by
  have hcalc := calc_limits_const B l v hlen hall
  rw [max_eq_left hv] at hcalc
  exact ⟨test_normality_const B l v hlen hall, by rw [hcalc], by rw [hcalc],
    by rw [hcalc], by rw [hcalc], by rw [hcalc], by rw [hcalc]⟩

/-- Witness for C2 at the concrete constant sample [2, 2, 2]. -/
theorem C2_witness :
    test_normality trivialStats ([2, 2, 2].map some) =
      (false, 0, .zeroRange) ∧
    (calculate_control_limits trivialStats ([2, 2, 2].map some)).method =
      .mad ∧
    (calculate_control_limits trivialStats ([2, 2, 2].map some)).isNormal =
      false ∧
    (calculate_control_limits trivialStats ([2, 2, 2].map some)).std =
      some 0 ∧
    (calculate_control_limits trivialStats ([2, 2, 2].map some)).mean =
      some (round2 2) ∧
    (calculate_control_limits trivialStats ([2, 2, 2].map some)).ucl =
      some (round2 2) ∧
    (calculate_control_limits trivialStats ([2, 2, 2].map some)).lcl =
      some (round2 2) :=
  C2_zero_range trivialStats [2, 2, 2] 2 (by decide) (by decide) (by norm_num)

/-- Counterexample to C2 as stated: the constant sample [-1, -1, -1] has zero
    range and size 3, the robust method is used with MAD 0, but the lower
    control limit is floored to 0 while center and upper control limit are -1,
    so the three values are not all equal. -/
theorem C2_counterexample :
    (calculate_control_limits trivialStats [some (-1), some (-1), some (-1)]).ucl =
      some (-1) ∧
    (calculate_control_limits trivialStats [some (-1), some (-1), some (-1)]).lcl =
      some 0 ∧
    (calculate_control_limits trivialStats [some (-1), some (-1), some (-1)]).mean =
      some (-1) := by
  have h : [some (-1 : ℚ), some (-1), some (-1)] = [(-1 : ℚ), -1, -1].map some := by
    simp
  rw [h, calc_limits_const trivialStats [(-1 : ℚ), -1, -1] (-1) (by decide)
    (by intro x hx; simpa using hx)]
  have hmax : max (-1 : ℚ) 0 = 0 := by norm_num
  rw [hmax, round2_zero]
  have hm1 : round2 (-1) = -1 := by
    simpa using round2_intCast (-1)
  rw [hm1]
  exact ⟨rfl, rfl, rfl⟩

/- ---------------------------------------------------------------------------
   src/src/analysis/variance.py
   --------------------------------------------------------------------------- -/

/-- config/constants.py VarianceType. -/
inductive VarianceType
  | model
  | statistical
  | trend
deriving DecidableEq, Repr

/-- config/settings.py ControlVariables (F-0). Only the fields consumed by the
    analysis engine are modelled. -/
structure ControlVariables where
  daysToDrop : ℤ
  daysToProcess : ℤ
  newDataDay : ℤ
  useDataDay : Bool
  useStatistics : Bool
  varianceThreshold : ℚ
  weeksForTrends : ℤ
deriving Repr

/-- One row of the normalized facility hours table. Dates are whole day
    numbers; a null TOTAL_HOURS entry is modelled by none. -/
structure FacilityRow where
  facility : String
  role : String
  dayOfWeek : String
  date : ℤ
  hours : Option ℚ
deriving DecidableEq, Repr

/-- One row of the model (expected hours) table. -/
structure ModelRow where
  facility : String
  role : String
  dayOfWeek : String
  totalHours : ℚ
deriving DecidableEq, Repr

/-- model_loader.py get_model_hours_for_facility_role_day: TOTAL_HOURS of the
    first row matching facility, role and day of week, or 0.0 when there is
    no match. -/
def get_model_hours_for_facility_role_day (model : List ModelRow)
    (facility role dayOfWeek : String) : ℚ :=
  match model.find? (fun m => decide (m.facility = facility ∧ m.role = role ∧
      m.dayOfWeek = dayOfWeek)) with
  | some m => m.totalHours
  | none => 0

/-- A Python float as produced by calculate_variance_percentage: a finite
    value, positive infinity, or NaN. -/
inductive VP
  | fin (q : ℚ)
  | inf
  | nan
deriving DecidableEq, Repr

/-- variance.py calculate_variance_percentage. The actual argument is a pandas
    mean, which is NaN (none) for an all-null group; NaN == 0 is false in
    Python, hence a NaN actual with expected 0 also takes the inf branch. -/
def calculate_variance_percentage (actual : Option ℚ) (expected : ℚ) : VP :=
  if expected = 0 then
    match actual with
    | some a => if a = 0 then .fin 0 else .inf
    | none => .inf
  else
    match actual with
    | some a => .fin ((a - expected) / expected * 100)
    | none => .nan

/-- The infinity-to-999.0 substitution applied by detect_model_variances. -/
def substituteInf : VP → VP
  | .inf => .fin 999
  | v => v

/-- Python abs(percentage) > threshold on the float model: false for NaN. -/
def vpAbsGt (v : VP) (thr : ℚ) : Bool :=
  match v with
  | .fin q => decide (thr < |q|)
  | .inf => true
  | .nan => false

/-- models/data_models.py VarianceResult. In varianceValue, none models a NaN
    magnitude (possible only for an all-null group mean); in the remaining
    optional fields, none models Python None. -/
structure VarianceResult where
  facility : String
  role : String
  date : ℤ
  varianceType : VarianceType
  varianceValue : Option ℚ
  variancePercentage : Option ℚ
  isException : Bool
  thresholdUsed : Option ℚ
  modelHours : Option ℚ
  actualHours : Option ℚ
  controlLimitViolated : Option String
deriving DecidableEq, Repr

/-- Lexicographic order on (facility, role, day-of-week) keys, mirroring the
    sorted group order of pandas groupby. -/
def keyLE3 (a b : String × String × String) : Prop :=
  a.1 < b.1 ∨ (a.1 = b.1 ∧ (a.2.1 < b.2.1 ∨ (a.2.1 = b.2.1 ∧ a.2.2 ≤ b.2.2)))

instance : DecidableRel keyLE3 := fun a b => by
  unfold keyLE3; infer_instance

/-- Lexicographic order on (facility, role) keys. -/
def keyLE2 (a b : String × String) : Prop :=
  a.1 < b.1 ∨ (a.1 = b.1 ∧ a.2 ≤ b.2)

instance : DecidableRel keyLE2 := fun a b => by
  unfold keyLE2; infer_instance

/-- The distinct (facility, role, day-of-week) keys of the hours table in
    pandas groupby order. -/
def modelGroupKeys (rows : List FacilityRow) : List (String × String × String) :=
  ((rows.map fun r => (r.facility, r.role, r.dayOfWeek)).dedup).insertionSort
    keyLE3

/-- The rows of one (facility, role, day-of-week) group. -/
def modelGroupOf (rows : List FacilityRow) (k : String × String × String) :
    List FacilityRow :=
  rows.filter (fun r => decide ((r.facility, r.role, r.dayOfWeek) = k))

/-- The group-level model variance percentage computed by
    detect_model_variances: the percentage of the group mean against the
    looked-up model hours, with the infinity sentinel substituted. -/
def modelGroupPct (group : List FacilityRow) (model : List ModelRow)
    (k : String × String × String) : VP :=
  substituteInf (calculate_variance_percentage (meanO (group.map (·.hours)))
    (get_model_hours_for_facility_role_day model k.1 k.2.1 k.2.2))

/-- The body of the per-group loop of detect_model_variances: when the
    group-level percentage exceeds the threshold in absolute value, one
    VarianceResult per row of the group, each carrying the group-level
    percentage. -/
def detect_model_variances_group (k : String × String × String)
    (group : List FacilityRow) (model : List ModelRow)
    (cv : ControlVariables) : List VarianceResult :=
  let modelHours := get_model_hours_for_facility_role_day model k.1 k.2.1 k.2.2
  let actualMean := meanO (group.map (·.hours))
  let vp := modelGroupPct group model k
  if vpAbsGt vp cv.varianceThreshold then
    group.map (fun r =>
      { facility := k.1, role := k.2.1, date := r.date,
        varianceType := .model,
        varianceValue := actualMean.map (fun a => a - modelHours),
        variancePercentage := match vp with
          | .fin q => some (round2 q)
          | _ => none,
        isException := true,
        thresholdUsed := some cv.varianceThreshold,
        modelHours := some modelHours,
        actualHours := r.hours,
        controlLimitViolated := none })
  else []

/-- variance.py detect_model_variances. -/
def detect_model_variances (rows : List FacilityRow) (model : List ModelRow)
    (cv : ControlVariables) : List VarianceResult :=
  if rows = [] ∨ model = [] then []
  else
    (modelGroupKeys rows).flatMap (fun k =>
      detect_model_variances_group k (modelGroupOf rows k) model cv)

/- ---------------------------------------------------------------------------
   Claim C3 - zero expected model hours never raise and use the 999 sentinel
   --------------------------------------------------------------------------- -/

/-- Claim C3: in model-variance detection, for a group whose expected model
    hours are 0: if the mean actual hours are 0 the (sentinel-substituted)
    variance percentage is the finite value 0 and the group is not flagged for
    any nonnegative threshold; if the mean actual hours are positive the
    percentage is the finite sentinel 999, which exceeds every threshold in
    the 0-100 range, so the group is flagged. In both cases the percentage is
    a finite value: no numeric error and no NaN. -/
theorem C3_zero_expected_hours (g : List FacilityRow) (thr a : ℚ) :
    (meanO (g.map (·.hours)) = some a → a = 0 → 0 ≤ thr →
      substituteInf (calculate_variance_percentage (meanO (g.map (·.hours))) 0)
        = VP.fin 0 ∧
      vpAbsGt (substituteInf
        (calculate_variance_percentage (meanO (g.map (·.hours))) 0)) thr
        = false) ∧
    (meanO (g.map (·.hours)) = some a → 0 < a → thr ≤ 100 →
      substituteInf (calculate_variance_percentage (meanO (g.map (·.hours))) 0)
        = VP.fin 999 ∧
      vpAbsGt (substituteInf
        (calculate_variance_percentage (meanO (g.map (·.hours))) 0)) thr
        = true) := by
  constructor
  · intro hm ha hthr
    subst ha
    rw [hm]
    have h1 : calculate_variance_percentage (some 0) 0 = VP.fin 0 := by
      unfold calculate_variance_percentage
      simp
    rw [h1]
    refine ⟨rfl, ?_⟩
    show decide (thr < |(0 : ℚ)|) = false
    simp only [abs_zero, decide_eq_false_iff_not, not_lt]
    exact hthr
  · intro hm ha hthr
    rw [hm]
    have hne : a ≠ 0 := ne_of_gt ha
    have h1 : calculate_variance_percentage (some a) 0 = VP.inf := by
      unfold calculate_variance_percentage
      simp [hne]
    rw [h1]
    refine ⟨rfl, ?_⟩
    show decide (thr < |(999 : ℚ)|) = true
    have h9 : thr < (999 : ℚ) := by linarith
    simp only [show |(999 : ℚ)| = 999 from by norm_num, decide_eq_true_eq]
    exact h9

/-- An example row whose hours are 0, used to evaluate the engine. -/
def rowZeroHours : FacilityRow :=
  { facility := "F", role := "R", dayOfWeek := "Monday", date := 0,
    hours := some 0 }

/-- An example row whose hours are 6, used to evaluate the engine. -/
def rowSixHours : FacilityRow :=
  { facility := "F", role := "R", dayOfWeek := "Monday", date := 0,
    hours := some 6 }

/-- Witness for C3 at two concrete one-row groups: mean actual hours 0 and
    mean actual hours 6, both with expected model hours 0 and threshold 15. -/
theorem C3_witness :
    (substituteInf (calculate_variance_percentage
        (meanO ([rowZeroHours].map (·.hours))) 0) = VP.fin 0 ∧
     vpAbsGt (substituteInf (calculate_variance_percentage
        (meanO ([rowZeroHours].map (·.hours))) 0)) 15 = false) ∧
    (substituteInf (calculate_variance_percentage
        (meanO ([rowSixHours].map (·.hours))) 0) = VP.fin 999 ∧
     vpAbsGt (substituteInf (calculate_variance_percentage
        (meanO ([rowSixHours].map (·.hours))) 0)) 15 = true) := by
  constructor
  · exact (C3_zero_expected_hours [rowZeroHours] 15 0).1
      (by simp [meanO, meanQ, dropna, rowZeroHours]) rfl (by norm_num)
  · exact (C3_zero_expected_hours [rowSixHours] 15 6).2
      (by simp [meanO, meanQ, dropna, rowSixHours]) (by norm_num) (by norm_num)

/- ---------------------------------------------------------------------------
   Claim C4 - model variance flagging and one record per dated observation
   --------------------------------------------------------------------------- -/

/-- Claim C4: detect_model_variances processes each (facility, role,
    day-of-week) group independently (first conjunct); a group whose
    sentinel-substituted group-level percentage is the finite value q is
    flagged as an exception if and only if the group is nonempty and |q|
    exceeds the variance threshold (second conjunct); and a flagged group
    emits exactly one VarianceResult of kind MODEL per dated observation of
    the group, in order, each carrying the same group-level percentage (third
    conjunct). -/
theorem C4_model_variance_records (rows : List FacilityRow)
    (model : List ModelRow) (cv : ControlVariables)
    (k : String × String × String) (q : ℚ)
    (hq : modelGroupPct (modelGroupOf rows k) model k = VP.fin q) :
    (rows ≠ [] → model ≠ [] →
      detect_model_variances rows model cv =
        (modelGroupKeys rows).flatMap (fun j =>
          detect_model_variances_group j (modelGroupOf rows j) model cv)) ∧
    (detect_model_variances_group k (modelGroupOf rows k) model cv ≠ [] ↔
      (modelGroupOf rows k ≠ [] ∧ cv.varianceThreshold < |q|)) ∧
    (cv.varianceThreshold < |q| →
      (detect_model_variances_group k (modelGroupOf rows k) model cv).length
        = (modelGroupOf rows k).length ∧
      (detect_model_variances_group k (modelGroupOf rows k) model cv).map
          (fun rec => rec.date)
        = (modelGroupOf rows k).map (fun r => r.date) ∧
      ∀ rec ∈ detect_model_variances_group k (modelGroupOf rows k) model cv,
        rec.varianceType = VarianceType.model ∧ rec.isException = true ∧
        rec.variancePercentage = some (round2 q) ∧
        rec.facility = k.1 ∧ rec.role = k.2.1) := by
  have hg : detect_model_variances_group k (modelGroupOf rows k) model cv =
      if cv.varianceThreshold < |q| then
        (modelGroupOf rows k).map (fun r =>
          { facility := k.1, role := k.2.1, date := r.date,
            varianceType := .model,
            varianceValue := (meanO ((modelGroupOf rows k).map (·.hours))).map
              (fun a => a -
                get_model_hours_for_facility_role_day model k.1 k.2.1 k.2.2),
            variancePercentage := some (round2 q),
            isException := true,
            thresholdUsed := some cv.varianceThreshold,
            modelHours := some
              (get_model_hours_for_facility_role_day model k.1 k.2.1 k.2.2),
            actualHours := r.hours,
            controlLimitViolated := none })
      else [] := by
    unfold detect_model_variances_group
    rw [hq]
    by_cases hf : cv.varianceThreshold < |q|
    · rw [if_pos (by simpa [vpAbsGt] using hf), if_pos hf]
    · rw [if_neg (by simpa [vpAbsGt] using hf), if_neg hf]
  refine ⟨?_, ?_, ?_⟩
  · intro h1 h2
    unfold detect_model_variances
    rw [if_neg (by simp [h1, h2])]
  · rw [hg]
    by_cases hf : cv.varianceThreshold < |q|
    · rw [if_pos hf]
      simp [hf]
    · rw [if_neg hf]
      simp [hf]
  · intro hf
    rw [hg, if_pos hf]
    refine ⟨List.length_map _ _, ?_, ?_⟩
    · rw [List.map_map]
      rfl
    · intro rec hrec
      rcases List.mem_map.mp hrec with ⟨r, _, hr⟩
      rw [← hr]
      exact ⟨rfl, rfl, rfl, rfl, rfl⟩

/-- An example row with 12 actual hours, used to evaluate the engine. -/
def rowTwelve : FacilityRow :=
  { facility := "F", role := "R", dayOfWeek := "Monday", date := 10,
    hours := some 12 }

/-- An example model entry expecting 10 hours, used to evaluate the engine. -/
def modelTen : ModelRow :=
  { facility := "F", role := "R", dayOfWeek := "Monday", totalHours := 10 }

/-- Example control variables with the default 15 percent threshold. -/
def cvFifteen : ControlVariables :=
  { daysToDrop := 7, daysToProcess := 84, newDataDay := 1,
    useDataDay := false, useStatistics := true, varianceThreshold := 15,
    weeksForTrends := 8 }

/-- Witness for C4: a single observation of 12 hours against 10 expected
    hours gives the group percentage 20, which exceeds the threshold 15, and
    exactly one MODEL record carrying 20 percent is emitted. -/
theorem C4_witness :
    (detect_model_variances_group ("F", "R", "Monday")
        (modelGroupOf [rowTwelve] ("F", "R", "Monday")) [modelTen]
        cvFifteen).length
      = (modelGroupOf [rowTwelve] ("F", "R", "Monday")).length ∧
    ∀ rec ∈ detect_model_variances_group ("F", "R", "Monday")
        (modelGroupOf [rowTwelve] ("F", "R", "Monday")) [modelTen] cvFifteen,
      rec.varianceType = VarianceType.model ∧ rec.isException = true ∧
      rec.variancePercentage = some (round2 20) ∧
      rec.facility = "F" ∧ rec.role = "R" := by
  have hq : modelGroupPct (modelGroupOf [rowTwelve] ("F", "R", "Monday"))
      [modelTen] ("F", "R", "Monday") = VP.fin 20 := by
    have hgrp : modelGroupOf [rowTwelve] ("F", "R", "Monday") = [rowTwelve] := by
      simp [modelGroupOf, rowTwelve]
    rw [hgrp]
    have hlook : get_model_hours_for_facility_role_day [modelTen] "F" "R"
        "Monday" = 10 := by
      simp [get_model_hours_for_facility_role_day, List.find?, modelTen]
    have hmean : meanO ([rowTwelve].map (·.hours)) = some 12 := by
      simp [meanO, meanQ, dropna, rowTwelve]
    unfold modelGroupPct
    rw [hlook, hmean]
    have : calculate_variance_percentage (some 12) 10 = VP.fin 20 := by
      unfold calculate_variance_percentage
      norm_num
    rw [this]
    rfl
  have h := (C4_model_variance_records [rowTwelve] [modelTen] cvFifteen
    ("F", "R", "Monday") 20 hq).2.2 (by
      show cvFifteen.varianceThreshold < |(20 : ℚ)|
      norm_num [cvFifteen])
  exact ⟨h.1, h.2.2⟩

/- ---------------------------------------------------------------------------
   Claim C5 - facility-role statistical variance detection
   --------------------------------------------------------------------------- -/

/-- One violation dictionary produced by statistics.py
    detect_control_violations. The index is the row label of the violating
    sample; limitExceeded and magnitude keep the Option of the control limit
    they are computed from (none would model a NaN limit, which can never
    produce a violation since Python comparisons with NaN are false). -/
structure Violation (ι : Type) where
  index : ι
  value : ℚ
  isUpper : Bool
  limitExceeded : Option ℚ
  magnitude : Option ℚ

/-- Python value > limit where the limit may be NaN (none): false on NaN. -/
def pyGt (v : ℚ) : Option ℚ → Bool
  | none => false
  | some u => decide (u < v)

/-- Python value < limit where the limit may be NaN (none): false on NaN. -/
def pyLt (v : ℚ) : Option ℚ → Bool
  | none => false
  | some u => decide (v < u)

/-- statistics.py detect_control_violations: one violation per non-null data
    point strictly above the UCL (tagged upper) or strictly below the LCL
    (tagged lower), with the rounded value and the rounded absolute excess
    beyond the violated bound. -/
def detect_control_violations {ι : Type} (data : List (ι × Option ℚ))
    (cl : ControlLimits) : List (Violation ι) :=
  data.filterMap (fun p =>
    match p.2 with
    | none => none
    | some v =>
      if pyGt v cl.ucl then
        some { index := p.1, value := round2 v, isUpper := true,
               limitExceeded := cl.ucl,
               magnitude := cl.ucl.map (fun u => round2 |v - u|) }
      else if pyLt v cl.lcl then
        some { index := p.1, value := round2 v, isUpper := false,
               limitExceeded := cl.lcl,
               magnitude := cl.lcl.map (fun u => round2 |v - u|) }
      else none)

/-- The non-null (row, hours) samples of a group: the result of dropna on the
    TOTAL_HOURS column, keeping the original row of each surviving value so
    that group.loc recovers the violating row. -/
def nonNullSamples (group : List FacilityRow) : List (FacilityRow × ℚ) :=
  group.filterMap (fun r => r.hours.map (fun h => (r, h)))

/-- The body of the per-group loop of
    detect_statistical_variances_by_role_day_facility: skip groups with fewer
    than 3 non-null samples, otherwise one STATISTICAL record per control
    limit violation. -/
def detect_statistical_group (B : StatsBackend) (k : String × String)
    (group : List FacilityRow) : List VarianceResult :=
  let samples := nonNullSamples group
  if samples.length < 3 then []
  else
    let cl := calculate_control_limits B (samples.map (fun p => some p.2))
    (detect_control_violations (samples.map (fun p => (p.1, some p.2))) cl).map
      (fun v =>
        { facility := k.1, role := k.2, date := v.index.date,
          varianceType := .statistical,
          varianceValue := v.magnitude,
          variancePercentage := none,
          isException := true, thresholdUsed := none, modelHours := none,
          actualHours := some v.value,
          controlLimitViolated := some (if v.isUpper then
            "upper control limit" else "lower control limit") })

/-- The distinct (facility, role) keys of the hours table in pandas groupby
    order. -/
def sGroupKeys (rows : List FacilityRow) : List (String × String) :=
  ((rows.map fun r => (r.facility, r.role)).dedup).insertionSort keyLE2

/-- The rows of one (facility, role) group. -/
def sGroupOf (rows : List FacilityRow) (k : String × String) :
    List FacilityRow :=
  rows.filter (fun r => decide ((r.facility, r.role) = k))

/-- variance.py detect_statistical_variances_by_role_day_facility. -/
def detect_statistical_variances_by_role_day_facility (B : StatsBackend)
    (rows : List FacilityRow) (cv : ControlVariables) : List VarianceResult :=
  if rows = [] ∨ cv.useStatistics = false then []
  else
    (sGroupKeys rows).flatMap (fun k =>
      detect_statistical_group B k (sGroupOf rows k))

/-- When the dropped-null sample is nonempty, both control limits returned by
    calculate_control_limits are real values, not NaN. -/
theorem calc_limits_real (B : StatsBackend) (data : List (Option ℚ))
    (h : dropna data ≠ []) :
    (∃ u, (calculate_control_limits B data).ucl = some u) ∧
    (∃ l, (calculate_control_limits B data).lcl = some l) := by
  by_cases hd : data = []
  · rw [hd] at h
    exact absurd rfl h
  · unfold calculate_control_limits
    rw [if_neg hd]
    dsimp only
    split_ifs with hn
    · exact ⟨⟨_, rfl⟩, ⟨_, rfl⟩⟩
    · rw [medianO, if_neg h]
      exact ⟨⟨_, rfl⟩, ⟨_, rfl⟩⟩

theorem filterMap_congr_local {α β : Type} {f g : α → Option β} :
    ∀ l : List α, (∀ x ∈ l, f x = g x) → l.filterMap f = l.filterMap g
  | [], _ => rfl
  | x :: xs, h => by
    rw [List.filterMap_cons, List.filterMap_cons, h x (by simp),
      filterMap_congr_local xs fun y hy => h y (by simp [hy])]

/-- Claim C5: detect_statistical_variances_by_role_day_facility processes
    each (facility, role) group independently (first conjunct); a group with
    fewer than 3 non-null samples is skipped, producing no records and no
    error (second conjunct); and for a group with at least 3 non-null samples
    the computed limits are real values u and l, and exactly one STATISTICAL
    record is emitted per sample strictly outside [l, u] - tagging which
    bound was violated and the rounded absolute excess beyond that bound -
    while samples inside the interval produce none (third conjunct). -/
theorem C5_statistical_variances (B : StatsBackend) (rows : List FacilityRow)
    (cv : ControlVariables) (k : String × String) :
    (rows ≠ [] → cv.useStatistics = true →
      detect_statistical_variances_by_role_day_facility B rows cv =
        (sGroupKeys rows).flatMap (fun j =>
          detect_statistical_group B j (sGroupOf rows j))) ∧
    ((nonNullSamples (sGroupOf rows k)).length < 3 →
      detect_statistical_group B k (sGroupOf rows k) = []) ∧
    (3 ≤ (nonNullSamples (sGroupOf rows k)).length →
      ∃ u l,
        (calculate_control_limits B ((nonNullSamples (sGroupOf rows k)).map
          (fun p => some p.2))).ucl = some u ∧
        (calculate_control_limits B ((nonNullSamples (sGroupOf rows k)).map
          (fun p => some p.2))).lcl = some l ∧
        detect_statistical_group B k (sGroupOf rows k) =
          (nonNullSamples (sGroupOf rows k)).filterMap (fun p =>
            if u < p.2 then
              some { facility := k.1, role := k.2, date := p.1.date,
                     varianceType := .statistical,
                     varianceValue := some (round2 |p.2 - u|),
                     variancePercentage := none, isException := true,
                     thresholdUsed := none, modelHours := none,
                     actualHours := some (round2 p.2),
                     controlLimitViolated := some "upper control limit" }
            else if p.2 < l then
              some { facility := k.1, role := k.2, date := p.1.date,
                     varianceType := .statistical,
                     varianceValue := some (round2 |p.2 - l|),
                     variancePercentage := none, isException := true,
                     thresholdUsed := none, modelHours := none,
                     actualHours := some (round2 p.2),
                     controlLimitViolated := some "lower control limit" }
            else none)) := by
  refine ⟨?_, ?_, ?_⟩
  · intro h1 h2
    unfold detect_statistical_variances_by_role_day_facility
    rw [if_neg (by simp [h1, h2])]
  · intro hlt
    unfold detect_statistical_group
    rw [if_pos hlt]
  · intro hge
    have hne : nonNullSamples (sGroupOf rows k) ≠ [] := by
      intro hempty
      rw [hempty] at hge
      simp at hge
    have hdrop : dropna ((nonNullSamples (sGroupOf rows k)).map
        (fun p => some p.2)) ≠ [] := by
      have : (nonNullSamples (sGroupOf rows k)).map (fun p => some p.2) =
          ((nonNullSamples (sGroupOf rows k)).map (fun p => p.2)).map some := by
        rw [List.map_map]
        rfl
      rw [this, dropna_map_some]
      simp [hne]
    obtain ⟨⟨u, hu⟩, ⟨l, hl⟩⟩ := calc_limits_real B
      ((nonNullSamples (sGroupOf rows k)).map (fun p => some p.2)) hdrop
    refine ⟨u, l, hu, hl, ?_⟩
    unfold detect_statistical_group
    rw [if_neg (by omega)]
    dsimp only
    unfold detect_control_violations
    rw [List.filterMap_map, List.map_filterMap]
    rw [hu, hl]
    apply filterMap_congr_local
    intro p _
    by_cases h1 : u < p.2
    · simp [Function.comp, pyGt, pyLt, h1]
    · by_cases h2 : p.2 < l
      · simp [Function.comp, pyGt, pyLt, h1, h2]
      · simp [Function.comp, pyGt, pyLt, h1, h2]

/-- An example facility row for facility F, role R with given date and
    hours. -/
def srow (n : ℤ) (h : ℚ) : FacilityRow :=
  { facility := "F", role := "R", dayOfWeek := "Monday", date := n,
    hours := some h }

/-- A three-sample example group. -/
def srows : List FacilityRow := [srow 1 8, srow 2 9, srow 3 10]

/-- Witness for C5: a one-sample group is skipped, and a three-sample group
    is characterized by the violation rule. -/
theorem C5_witness :
    detect_statistical_group trivialStats ("F", "R")
      (sGroupOf [rowTwelve] ("F", "R")) = [] ∧
    ∃ u l,
      (calculate_control_limits trivialStats
        ((nonNullSamples (sGroupOf srows ("F", "R"))).map
          (fun p => some p.2))).ucl = some u ∧
      (calculate_control_limits trivialStats
        ((nonNullSamples (sGroupOf srows ("F", "R"))).map
          (fun p => some p.2))).lcl = some l ∧
      detect_statistical_group trivialStats ("F", "R")
          (sGroupOf srows ("F", "R")) =
        (nonNullSamples (sGroupOf srows ("F", "R"))).filterMap (fun p =>
          if u < p.2 then
            some { facility := "F", role := "R", date := p.1.date,
                   varianceType := .statistical,
                   varianceValue := some (round2 |p.2 - u|),
                   variancePercentage := none, isException := true,
                   thresholdUsed := none, modelHours := none,
                   actualHours := some (round2 p.2),
                   controlLimitViolated := some "upper control limit" }
          else if p.2 < l then
            some { facility := "F", role := "R", date := p.1.date,
                   varianceType := .statistical,
                   varianceValue := some (round2 |p.2 - l|),
                   variancePercentage := none, isException := true,
                   thresholdUsed := none, modelHours := none,
                   actualHours := some (round2 p.2),
                   controlLimitViolated := some "lower control limit" }
          else none) := by
  constructor
  · exact (C5_statistical_variances trivialStats [rowTwelve] cvFifteen
      ("F", "R")).2.1 (by simp [nonNullSamples, sGroupOf, rowTwelve])
  · exact (C5_statistical_variances trivialStats srows cvFifteen
      ("F", "R")).2.2 (by simp [nonNullSamples, sGroupOf, srows, srow])

/- ---------------------------------------------------------------------------
   src/src/analysis/trends.py
   --------------------------------------------------------------------------- -/

/-- One row of the hours table as consumed by trends.py. TOTAL_HOURS is
    modelled as numeric; weekStart is the WeekStart weekly-aggregation column
    added by the hours loader. -/
structure TrendRow where
  facility : String
  role : String
  date : ℤ
  hours : ℚ
  weekStart : ℤ
deriving DecidableEq, Repr

/-- models/data_models.py TrendAnalysisResult. -/
structure TrendAnalysisResult where
  facility : String
  role : String
  analysisStartDate : ℤ
  analysisEndDate : ℤ
  slope : ℚ
  pValue : ℚ
  rSquared : ℚ
  isSignificantTrend : Bool
  trendDirection : String
  weeksAnalyzed : ℤ
deriving DecidableEq, Repr

/-- Abstraction of scipy.stats.linregress combined with the try/except of
    calculate_linear_trend: run gives (slope, p_value, r_squared), with the
    (0, 1, 0) fallback when scipy raises. The field constYields records the
    documented scipy behavior on a constant dependent variable of length at
    least 2: when the y sum of squares is 0 scipy sets r to 0, so the slope is
    0 and the two-sided p-value of the zero t statistic is 1; and on constant
    x scipy raises, which the try/except also turns into (0, 1, 0). -/
structure RegressBackend where
  run : List ℤ → List ℚ → ℚ × ℚ × ℚ
  constYields : ∀ (xs : List ℤ) (ys : List ℚ) (c : ℚ),
    (∀ y ∈ ys, y = c) → xs.length = ys.length → 2 ≤ ys.length →
    run xs ys = (0, 1, 0)

/-- A backend with concrete values, used to evaluate the engine at concrete
    inputs. -/
def trivialRegress : RegressBackend :=
  ⟨fun _ _ => (0, 1, 0), fun _ _ _ _ _ _ => rfl⟩

/-- trends.py calculate_linear_trend: (0.0, 1.0, 0.0) on mismatched or
    too-short input, otherwise the regression statistics. -/
def calculate_linear_trend (B : RegressBackend) (xs : List ℤ) (ys : List ℚ) :
    ℚ × ℚ × ℚ :=
  if xs.length ≠ ys.length ∨ xs.length < 2 then (0, 1, 0)
  else B.run xs ys

/-- trends.py determine_trend_direction. -/
def determine_trend_direction (slope pValue : ℚ)
    (significanceThreshold : ℚ := 1/20) : String :=
  if significanceThreshold < pValue then "stable"
  else if 0 < slope then "increasing"
  else if slope < 0 then "decreasing"
  else "stable"

/-- Series.max on whole-day dates (0 is a don't-care default for empty). -/
def listMaxZ : List ℤ → ℤ
  | [] => 0
  | x :: xs => xs.foldl max x

/-- Series.min on whole-day dates. -/
def listMinZ : List ℤ → ℤ
  | [] => 0
  | x :: xs => xs.foldl min x

/-- Ordering by date used by sort_values on the HOURS_DATE column. -/
def dateLE (a b : TrendRow) : Prop := a.date ≤ b.date

instance : DecidableRel dateLE := fun a b => by
  unfold dateLE; infer_instance

/-- The subset of rows of one facility-role combination. -/
def trendSubset (rows : List TrendRow) (facility role : String) :
    List TrendRow :=
  rows.filter (fun r => decide (r.facility = facility ∧ r.role = role))

/-- The trailing trend window of analyze_facility_role_trend: the subset is
    sorted by date, and rows on or after max date minus weeks_for_trends
    weeks are kept. -/
def trendWindow (rows : List TrendRow) (facility role : String)
    (weeksForTrends : ℤ) : List TrendRow :=
  let sorted := (trendSubset rows facility role).insertionSort dateLE
  let maxDate := listMaxZ (sorted.map (·.date))
  sorted.filter (fun r => decide (maxDate - 7 * weeksForTrends ≤ r.date))

/-- The sorted distinct WeekStart values of the window, mirroring pandas
    groupby key order. -/
def weeklyKeys (trend : List TrendRow) : List ℤ :=
  ((trend.map (·.weekStart)).dedup).insertionSort (· ≤ ·)

/-- The weekly aggregation of the window: per WeekStart, the mean of
    TOTAL_HOURS and the first HOURS_DATE. -/
def weeklyAgg (trend : List TrendRow) : List (ℤ × ℚ × ℤ) :=
  (weeklyKeys trend).map (fun w =>
    let g := trend.filter (fun r => decide (r.weekStart = w))
    (w, meanQ (g.map (·.hours)), ((g.head?).map (·.date)).getD 0))

/-- The regression input series of analyze_facility_role_trend: day offsets
    from the window's first date against hours, weekly-aggregated when the
    WeekStart column is present. -/
def regressionSeries (trend : List TrendRow) (hasWeekStart : Bool) :
    List ℤ × List ℚ :=
  let minDate := listMinZ (trend.map (·.date))
  if hasWeekStart then
    ((weeklyAgg trend).map (fun t => t.2.2 - minDate),
     (weeklyAgg trend).map (fun t => t.2.1))
  else
    (trend.map (fun r => r.date - minDate), trend.map (·.hours))

/-- trends.py analyze_facility_role_trend. -/
def analyze_facility_role_trend (B : RegressBackend) (rows : List TrendRow)
    (facility role : String) (weeksForTrends : ℤ) (hasWeekStart : Bool) :
    Option TrendAnalysisResult :=
  if trendSubset rows facility role = [] then none
  else
    let trend := trendWindow rows facility role weeksForTrends
    if trend.length < 3 then none
    else
      let xsys := regressionSeries trend hasWeekStart
      let s := calculate_linear_trend B xsys.1 xsys.2
      some { facility := facility, role := role,
             analysisStartDate := listMinZ (trend.map (·.date)),
             analysisEndDate := listMaxZ (trend.map (·.date)),
             slope := round4 s.1, pValue := round4 s.2.1,
             rSquared := round4 s.2.2,
             isSignificantTrend := decide (s.2.1 ≤ 1/20),
             trendDirection := determine_trend_direction s.1 s.2.1,
             weeksAnalyzed := weeksForTrends }

/- Facts about list maxima used to relate the sorted window to the raw
   subset. -/

theorem le_foldl_max (l : List ℤ) : ∀ a x, x = a ∨ x ∈ l →
    x ≤ l.foldl max a := by
  induction l with
  | nil =>
    intro a x hx
    rcases hx with h | h
    · exact le_of_eq h
    · simp at h
  | cons y ys ih =>
    intro a x hx
    rw [List.foldl_cons]
    rcases hx with h | h
    · subst h
      exact le_trans (le_max_left x y) (ih (max x y) (max x y) (Or.inl rfl))
    · rcases List.mem_cons.mp h with h | h
      · subst h
        exact le_trans (le_max_right a x) (ih (max a x) (max a x) (Or.inl rfl))
      · exact ih (max a y) x (Or.inr h)

theorem foldl_max_mem (l : List ℤ) : ∀ a, l.foldl max a = a ∨
    l.foldl max a ∈ l := by
  induction l with
  | nil => intro a; exact Or.inl rfl
  | cons y ys ih =>
    intro a
    rw [List.foldl_cons]
    rcases ih (max a y) with h | h
    · rcases max_choice a y with hm | hm
      · exact Or.inl (h.trans hm)
      · exact Or.inr (List.mem_cons.mpr (Or.inl (h.trans hm)))
    · exact Or.inr (List.mem_cons.mpr (Or.inr h))

theorem le_listMaxZ {l : List ℤ} {x : ℤ} (hx : x ∈ l) : x ≤ listMaxZ l := by
  cases l with
  | nil => simp at hx
  | cons y ys =>
    rcases List.mem_cons.mp hx with h | h
    · exact le_foldl_max ys y x (Or.inl h)
    · exact le_foldl_max ys y x (Or.inr h)

theorem listMaxZ_mem {l : List ℤ} (h : l ≠ []) : listMaxZ l ∈ l := by
  cases l with
  | nil => exact absurd rfl h
  | cons y ys =>
    rcases foldl_max_mem ys y with hm | hm
    · exact List.mem_cons.mpr (Or.inl hm)
    · exact List.mem_cons.mpr (Or.inr hm)

theorem listMaxZ_eq_of_perm {l1 l2 : List ℤ} (h : l1.Perm l2) :
    listMaxZ l1 = listMaxZ l2 := by
  by_cases hne : l1 = []
  · subst hne
    rw [List.Perm.eq_nil h.symm]
  · have hne2 : l2 ≠ [] := by
      intro h2
      exact hne (List.Perm.eq_nil (h2 ▸ h))
    exact le_antisymm
      (le_listMaxZ (h.mem_iff.mp (listMaxZ_mem hne)))
      (le_listMaxZ (h.mem_iff.mpr (listMaxZ_mem hne2)))

/- ---------------------------------------------------------------------------
   Claim C6 - the trend window and the minimum-points gate
   --------------------------------------------------------------------------- -/

/-- Claim C6 (amended): for every (facility, role) combination, a TrendRecord
    is produced if and only if at least 3 rows of that combination lie in the
    trailing window of 7 times weeks_for_trends days ending at that
    combination's own latest date (the gate counts daily rows before weekly
    aggregation, and the window ends at the facility-role subset's latest
    date, not the whole dataset's); otherwise the combination is silently
    skipped. When a record is produced, its analysis end date is the
    facility-role subset's latest date. -/
theorem C6_trend_window_gate (B : RegressBackend) (rows : List TrendRow)
    (facility role : String) (weeksForTrends : ℤ) (hasWeekStart : Bool) :
    ((analyze_facility_role_trend B rows facility role weeksForTrends
        hasWeekStart).isSome = true ↔
      3 ≤ ((trendSubset rows facility role).filter (fun r => decide
        (listMaxZ ((trendSubset rows facility role).map (·.date)) -
          7 * weeksForTrends ≤ r.date))).length) ∧
    (∀ res, analyze_facility_role_trend B rows facility role weeksForTrends
        hasWeekStart = some res → 0 ≤ weeksForTrends →
      res.analysisEndDate =
        listMaxZ ((trendSubset rows facility role).map (·.date))) := by
  have hperm : ((trendSubset rows facility role).insertionSort dateLE).Perm
      (trendSubset rows facility role) :=
    List.perm_insertionSort dateLE (trendSubset rows facility role)
  have hmax : listMaxZ (((trendSubset rows facility role).insertionSort
      dateLE).map (·.date)) =
      listMaxZ ((trendSubset rows facility role).map (·.date)) :=
    listMaxZ_eq_of_perm (hperm.map (·.date))
  have hlen : (trendWindow rows facility role weeksForTrends).length =
      ((trendSubset rows facility role).filter (fun r => decide
        (listMaxZ ((trendSubset rows facility role).map (·.date)) -
          7 * weeksForTrends ≤ r.date))).length := by
    unfold trendWindow
    dsimp only
    rw [hmax]
    exact (hperm.filter _).length_eq
  constructor
  · unfold analyze_facility_role_trend
    by_cases hsub : trendSubset rows facility role = []
    · rw [if_pos hsub, hsub]
      simp
    · rw [if_neg hsub]
      dsimp only
      rw [← hlen]
      split_ifs with h3
      · simp
        omega
      · simp
        omega
  · intro res hres hwk
    unfold analyze_facility_role_trend at hres
    by_cases hsub : trendSubset rows facility role = []
    · rw [if_pos hsub] at hres
      exact absurd hres (by simp)
    · rw [if_neg hsub] at hres
      dsimp only at hres
      by_cases h3 : (trendWindow rows facility role weeksForTrends).length < 3
      · rw [if_pos h3] at hres
        exact absurd hres (by simp)
      · rw [if_neg h3] at hres
        have hres2 := Option.some.inj hres
        have hend : res.analysisEndDate = listMaxZ ((trendWindow rows facility
            role weeksForTrends).map (·.date)) := by
          rw [← hres2]
        rw [hend, ← hmax]
        -- the subset's latest date survives the window filter, so the two
        -- maxima agree
        have htne : trendWindow rows facility role weeksForTrends ≠ [] := by
          intro h0
          rw [h0] at h3
          simp at h3
        have hsne : (trendSubset rows facility role).insertionSort dateLE
            ≠ [] := by
          intro h0
          exact hsub (List.Perm.eq_nil (h0 ▸ hperm).symm)
        apply le_antisymm
        · -- every window date is a subset date
          have hmem := listMaxZ_mem (l := (trendWindow rows facility role
            weeksForTrends).map (·.date)) (by simp [htne])
          rcases List.mem_map.mp hmem with ⟨r, hr, hrd⟩
          have hrs : r ∈ (trendSubset rows facility role).insertionSort
              dateLE := List.mem_of_mem_filter hr
          rw [← hrd]
          exact le_listMaxZ (List.mem_map.mpr ⟨r, hrs, rfl⟩)
        · -- the maximal date satisfies the cutoff
          have hmem := listMaxZ_mem (l := ((trendSubset rows facility
            role).insertionSort dateLE).map (·.date)) (by simp [hsne])
          rcases List.mem_map.mp hmem with ⟨r, hr, hrd⟩
          have hcut : listMaxZ (((trendSubset rows facility role).insertionSort
              dateLE).map (·.date)) - 7 * weeksForTrends ≤ r.date := by
            rw [hrd]
            omega
          have hrw : r ∈ trendWindow rows facility role weeksForTrends := by
            unfold trendWindow
            exact List.mem_filter.mpr ⟨hr, by simpa using hcut⟩
          rw [← hrd]
          exact le_listMaxZ (List.mem_map.mpr ⟨r, hrw, rfl⟩)

/-- An example trend row. -/
def trow (f r : String) (d : ℤ) (h : ℚ) (w : ℤ) : TrendRow :=
  { facility := f, role := r, date := d, hours := h, weekStart := w }

/-- Three rows of one facility-role combination on days 0, 1, 2. -/
def trowsW : List TrendRow :=
  [trow "A" "R" 0 5 0, trow "A" "R" 1 5 0, trow "A" "R" 2 5 0]

/-- The produced record for trowsW under the trivial regression backend. -/
def resW : TrendAnalysisResult :=
  { facility := "A", role := "R", analysisStartDate := 0,
    analysisEndDate := 2, slope := round4 0, pValue := round4 1,
    rSquared := round4 0, isSignificantTrend := decide ((1 : ℚ) ≤ 1/20),
    trendDirection := determine_trend_direction 0 1, weeksAnalyzed := 8 }

/-- Witness for C6 at three rows of one combination over 8 weeks. -/
theorem C6_witness :
    ((analyze_facility_role_trend trivialRegress trowsW "A" "R" 8
        false).isSome = true ↔
      3 ≤ ((trendSubset trowsW "A" "R").filter (fun r => decide
        (listMaxZ ((trendSubset trowsW "A" "R").map (·.date)) - 7 * 8 ≤
          r.date))).length) ∧
    resW.analysisEndDate = listMaxZ ((trendSubset trowsW "A" "R").map
      (·.date)) :=
  ⟨(C6_trend_window_gate trivialRegress trowsW "A" "R" 8 false).1,
   (C6_trend_window_gate trivialRegress trowsW "A" "R" 8 false).2 resW
     (by rfl) (by norm_num)⟩

/-- A dataset where facility A role R holds days 0..2 and facility B role S
    holds day 100. -/
def trowsC6 : List TrendRow :=
  [trow "A" "R" 0 5 0, trow "A" "R" 1 5 0, trow "A" "R" 2 5 0,
   trow "B" "S" 100 5 98]

/-- Counterexample to C6 as stated: with weeks_for_trends 8, facility A role
    R has no observation in the trailing 56-day window ending at the
    dataset's latest date (day 100), and only 1 point remains after weekly
    aggregation of the window the code actually uses, yet the combination is
    analyzed and produces a TrendRecord: the code windows each combination at
    its own latest date and gates on the pre-aggregation row count. -/
theorem C6_counterexample :
    (analyze_facility_role_trend trivialRegress trowsC6 "A" "R" 8
      true).isSome = true ∧
    ((trendSubset trowsC6 "A" "R").filter (fun r => decide
      (listMaxZ (trowsC6.map (·.date)) - 7 * 8 ≤ r.date))).length = 0 ∧
    (weeklyAgg (trendWindow trowsC6 "A" "R" 8)).length = 1 := by
  refine ⟨by rfl, by rfl, by rfl⟩

/- ---------------------------------------------------------------------------
   Claim C7 - trend direction classification and significance flag
   --------------------------------------------------------------------------- -/

/-- The regression statistics computed inside analyze_facility_role_trend. -/
def trendRegression (B : RegressBackend) (rows : List TrendRow)
    (facility role : String) (weeksForTrends : ℤ) (hasWeekStart : Bool) :
    ℚ × ℚ × ℚ :=
  calculate_linear_trend B
    (regressionSeries (trendWindow rows facility role weeksForTrends)
      hasWeekStart).1
    (regressionSeries (trendWindow rows facility role weeksForTrends)
      hasWeekStart).2

theorem regressionSeries_length (trend : List TrendRow) (hw : Bool) :
    (regressionSeries trend hw).1.length =
      (regressionSeries trend hw).2.length := by
  unfold regressionSeries
  split_ifs <;> simp

/-- On a constant dependent series, the combined regression-with-fallback
    yields slope 0, p-value 1 and r-squared 0, for every backend. -/
theorem calculate_linear_trend_const (B : RegressBackend) (xs : List ℤ)
    (ys : List ℚ) (c : ℚ) (hc : ∀ y ∈ ys, y = c)
    (hlen : xs.length = ys.length) :
    calculate_linear_trend B xs ys = (0, 1, 0) := by
  unfold calculate_linear_trend
  split_ifs with h
  · rfl
  · push_neg at h
    exact B.constYields xs ys c hc hlen (hlen ▸ h.2)

/-- Claim C7: for every produced TrendRecord, with (slope, p, r2) the
    regression statistics of the record's window: the stored direction is
    determine_trend_direction slope p; the significance flag is
    (p <= 0.05); if p > 0.05 the direction is stable regardless of the
    slope's sign; otherwise the direction is increasing for slope > 0,
    decreasing for slope < 0, stable for slope = 0; a zero slope gives a
    stable direction in every case; and a perfectly flat series (constant
    hours) yields direction stable with the significance flag false. -/
theorem C7_trend_direction (B : RegressBackend) (rows : List TrendRow)
    (facility role : String) (weeks : ℤ) (hw : Bool)
    (res : TrendAnalysisResult)
    (hres : analyze_facility_role_trend B rows facility role weeks hw
      = some res) :
    res.trendDirection = determine_trend_direction
      (trendRegression B rows facility role weeks hw).1
      (trendRegression B rows facility role weeks hw).2.1 ∧
    res.isSignificantTrend =
      decide ((trendRegression B rows facility role weeks hw).2.1 ≤ 1/20) ∧
    (1/20 < (trendRegression B rows facility role weeks hw).2.1 →
      res.trendDirection = "stable") ∧
    ((trendRegression B rows facility role weeks hw).2.1 ≤ 1/20 →
      (0 < (trendRegression B rows facility role weeks hw).1 →
        res.trendDirection = "increasing") ∧
      ((trendRegression B rows facility role weeks hw).1 < 0 →
        res.trendDirection = "decreasing") ∧
      ((trendRegression B rows facility role weeks hw).1 = 0 →
        res.trendDirection = "stable")) ∧
    ((trendRegression B rows facility role weeks hw).1 = 0 →
      res.trendDirection = "stable") ∧
    (∀ c : ℚ, (∀ y ∈ (regressionSeries (trendWindow rows facility role weeks)
        hw).2, y = c) →
      res.trendDirection = "stable" ∧ res.isSignificantTrend = false) := by
  have hkey : res.trendDirection = determine_trend_direction
      (trendRegression B rows facility role weeks hw).1
      (trendRegression B rows facility role weeks hw).2.1 ∧
      res.isSignificantTrend =
        decide ((trendRegression B rows facility role weeks hw).2.1 ≤ 1/20) := by
    unfold analyze_facility_role_trend at hres
    by_cases h1 : trendSubset rows facility role = []
    · rw [if_pos h1] at hres
      exact absurd hres (by simp)
    · rw [if_neg h1] at hres
      dsimp only at hres
      by_cases h2 : (trendWindow rows facility role weeks).length < 3
      · rw [if_pos h2] at hres
        exact absurd hres (by simp)
      · rw [if_neg h2] at hres
        have hrec := (Option.some.inj hres).symm
        exact ⟨(congrArg TrendAnalysisResult.trendDirection hrec).trans rfl,
          (congrArg TrendAnalysisResult.isSignificantTrend hrec).trans rfl⟩
  have hdir := hkey.1
  have hsig := hkey.2
  refine ⟨hdir, hsig, ?_, ?_, ?_, ?_⟩
  · intro hp
    rw [hdir]
    unfold determine_trend_direction
    rw [if_pos hp]
  · intro hp
    have hnp : ¬ (1/20 : ℚ) <
        (trendRegression B rows facility role weeks hw).2.1 := not_lt.mpr hp
    refine ⟨?_, ?_, ?_⟩
    · intro hs
      rw [hdir]
      unfold determine_trend_direction
      rw [if_neg hnp, if_pos hs]
    · intro hs
      rw [hdir]
      unfold determine_trend_direction
      rw [if_neg hnp, if_neg (not_lt.mpr (le_of_lt hs)), if_pos hs]
    · intro hs
      rw [hdir]
      unfold determine_trend_direction
      rw [if_neg hnp, if_neg (by rw [hs]; exact lt_irrefl 0),
        if_neg (by rw [hs]; exact lt_irrefl 0)]
  · intro hs
    rw [hdir]
    unfold determine_trend_direction
    by_cases hp : (1/20 : ℚ) <
        (trendRegression B rows facility role weeks hw).2.1
    · rw [if_pos hp]
    · rw [if_neg hp, if_neg (by rw [hs]; exact lt_irrefl 0),
        if_neg (by rw [hs]; exact lt_irrefl 0)]
  · intro c hc
    have hreg : trendRegression B rows facility role weeks hw = (0, 1, 0) :=
      calculate_linear_trend_const B _ _ c hc
        (regressionSeries_length (trendWindow rows facility role weeks) hw)
    constructor
    · rw [hdir, hreg]
      unfold determine_trend_direction
      rw [if_pos (by norm_num)]
    · rw [hsig, hreg]
      simp only [decide_eq_false_iff_not, not_le]
      norm_num

/-- Witness for C7 at the flat three-row dataset trowsW: the produced record
    is classified stable and not significant. -/
theorem C7_witness :
    resW.trendDirection = determine_trend_direction
      (trendRegression trivialRegress trowsW "A" "R" 8 false).1
      (trendRegression trivialRegress trowsW "A" "R" 8 false).2.1 ∧
    resW.trendDirection = "stable" ∧
    resW.isSignificantTrend = false := by
  have h := C7_trend_direction trivialRegress trowsW "A" "R" 8 false resW
    (by rfl)
  have hflat := h.2.2.2.2.2 5 (by
    intro y hy
    have hys : (regressionSeries (trendWindow trowsW "A" "R" 8) false).2 =
        [(5 : ℚ), 5, 5] := rfl
    rw [hys] at hy
    simpa using hy)
  exact ⟨h.1, hflat.1, hflat.2⟩

/- ---------------------------------------------------------------------------
   src/src/reporting/exceptions.py and Claim C8
   --------------------------------------------------------------------------- -/

/-- exceptions.py _calculate_variance_severity (0-100 scale). -/
def varianceSeverity (v : VarianceResult) : ℚ :=
  match v.varianceType with
  | .model =>
    match v.variancePercentage with
    | some p => min |p| 100
    | none => 50
  | .statistical =>
    match v.varianceValue with
    | some m => min (|m| * 10) 100
    | none => 60
  | .trend => 70

/-- exceptions.py _calculate_trend_severity (0-100 scale). -/
def trendSeverity (t : TrendAnalysisResult) : ℚ :=
  round2 (min ((1 - t.pValue) * 100 + t.rSquared * 20) 100)

/-- One row of the compiled exceptions DataFrame. The pass-through value
    columns and the generated description string are presentation-only and
    are not modelled; the sort contract reads only facility, severity and
    date. -/
structure ExceptionRecord where
  facility : String
  role : String
  date : ℤ
  exceptionType : String
  severity : ℚ
deriving DecidableEq, Repr

/-- The value attribute of the VarianceType enum. -/
def varianceTypeName : VarianceType → String
  | .model => "model"
  | .statistical => "statistical"
  | .trend => "trend"

/-- The unsorted exception rows built by compile_exceptions: one per variance
    flagged as an exception, then one per significant increasing or
    decreasing trend. -/
def compiledRecords (variances : List VarianceResult)
    (trends : List TrendAnalysisResult) : List ExceptionRecord :=
  (variances.filterMap fun v =>
    if v.isException then
      some { facility := v.facility, role := v.role, date := v.date,
             exceptionType := varianceTypeName v.varianceType,
             severity := varianceSeverity v }
    else none) ++
  ((trends.filter fun t => t.isSignificantTrend && decide
      (t.trendDirection = "increasing" ∨ t.trendDirection = "decreasing")).map
    fun t =>
      { facility := t.facility, role := t.role, date := t.analysisEndDate,
        exceptionType := "trend", severity := trendSeverity t })

/-- The sort order of compile_exceptions: facility ascending, then severity
    descending, then date descending. -/
def exLE (a b : ExceptionRecord) : Prop :=
  a.facility < b.facility ∨ (a.facility = b.facility ∧
    (b.severity < a.severity ∨ (a.severity = b.severity ∧ b.date ≤ a.date)))

instance : DecidableRel exLE := fun a b => by
  unfold exLE; infer_instance

instance : IsTotal ExceptionRecord exLE := by
  constructor
  intro a b
  unfold exLE
  rcases lt_trichotomy a.facility b.facility with h | h | h
  · exact Or.inl (Or.inl h)
  · rcases lt_trichotomy a.severity b.severity with h2 | h2 | h2
    · exact Or.inr (Or.inr ⟨h.symm, Or.inl h2⟩)
    · rcases le_total b.date a.date with h3 | h3
      · exact Or.inl (Or.inr ⟨h, Or.inr ⟨h2, h3⟩⟩)
      · exact Or.inr (Or.inr ⟨h.symm, Or.inr ⟨h2.symm, h3⟩⟩)
    · exact Or.inl (Or.inr ⟨h, Or.inl h2⟩)
  · exact Or.inr (Or.inl h)

instance : IsTrans ExceptionRecord exLE := by
  constructor
  intro a b c hab hbc
  unfold exLE at hab hbc ⊢
  rcases hab with h1 | ⟨h1, hr1⟩
  · rcases hbc with h2 | ⟨h2, _⟩
    · exact Or.inl (lt_trans h1 h2)
    · exact Or.inl (h2 ▸ h1)
  · rcases hbc with h2 | ⟨h2, hr2⟩
    · exact Or.inl (h1 ▸ h2)
    · refine Or.inr ⟨h1.trans h2, ?_⟩
      rcases hr1 with hs1 | ⟨hs1, hd1⟩
      · rcases hr2 with hs2 | ⟨hs2, _⟩
        · exact Or.inl (lt_trans hs2 hs1)
        · exact Or.inl (hs2 ▸ hs1)
      · rcases hr2 with hs2 | ⟨hs2, hd2⟩
        · exact Or.inl (hs1 ▸ hs2)
        · exact Or.inr ⟨hs1.trans hs2, le_trans hd2 hd1⟩

/-- exceptions.py compile_exceptions, as the sorted record list (sort_values
    by facility, severity, date with ascending True, False, False). -/
def compile_exceptions (variances : List VarianceResult)
    (trends : List TrendAnalysisResult) : List ExceptionRecord :=
  if variances = [] ∧ trends = [] then []
  else (compiledRecords variances trends).insertionSort exLE

/-- A statistical variance record for the C8 scenario. -/
def exV (f : String) (d : ℤ) (m : ℚ) : VarianceResult :=
  { facility := f, role := "R", date := d, varianceType := .statistical,
    varianceValue := some m, variancePercentage := none, isException := true,
    thresholdUsed := none, modelHours := none, actualHours := none,
    controlLimitViolated := none }

/-- The C8 scenario input: A with severities 40 and 90, B with severity 95. -/
def exVs : List VarianceResult := [exV "A" 1 4, exV "B" 1 (19/2), exV "A" 2 9]

/-- The compiled row of severity 40 for facility A. -/
def eA40 : ExceptionRecord :=
  { facility := "A", role := "R", date := 1, exceptionType := "statistical",
    severity := 40 }

/-- The compiled row of severity 95 for facility B. -/
def eB95 : ExceptionRecord :=
  { facility := "B", role := "R", date := 1, exceptionType := "statistical",
    severity := 95 }

/-- The compiled row of severity 90 for facility A. -/
def eA90 : ExceptionRecord :=
  { facility := "A", role := "R", date := 2, exceptionType := "statistical",
    severity := 90 }

/-- Claim C8: the compiled exception list is sorted by facility ascending,
    then severity descending, then date descending, and is a permutation of
    the built exception rows; in the concrete scenario of two facility-A
    records with severities 90 and 40 and one facility-B record with severity
    95, the output order is A/90, A/40, B/95. -/
theorem C8_exceptions_sorted :
    (∀ (variances : List VarianceResult) (trends : List TrendAnalysisResult),
      List.Pairwise (fun a b : ExceptionRecord =>
        a.facility < b.facility ∨ (a.facility = b.facility ∧
          (b.severity < a.severity ∨ (a.severity = b.severity ∧
            b.date ≤ a.date)))) (compile_exceptions variances trends) ∧
      (compile_exceptions variances trends).Perm
        (compiledRecords variances trends)) ∧
    (compile_exceptions exVs []).map (fun r => (r.facility, r.severity)) =
      [("A", (90 : ℚ)), ("A", 40), ("B", 95)] := by
  constructor
  · intro variances trends
    unfold compile_exceptions
    split_ifs with h
    · rcases h with ⟨h1, h2⟩
      subst h1
      subst h2
      exact ⟨List.Pairwise.nil, by simp [compiledRecords]⟩
    · exact ⟨List.sorted_insertionSort exLE (compiledRecords variances trends),
        List.perm_insertionSort exLE (compiledRecords variances trends)⟩
  · have hrecs : compiledRecords exVs [] = [eA40, eB95, eA90] := by
      have h192 : |(19/2 : ℚ)| = 19/2 := abs_of_pos (by norm_num)
      simp only [compiledRecords, exVs, exV, varianceSeverity,
        varianceTypeName, eA40, eB95, eA90, List.filterMap, List.filter,
        List.map, List.append_nil]
      norm_num [h192]
    have hguard : ¬ (exVs = [] ∧ ([] : List TrendAnalysisResult) = []) := by
      simp [exVs]
    have hc1 : ¬ exLE eB95 eA90 := by
      unfold exLE
      dsimp only [eB95, eA90]
      rintro (h | ⟨h, -⟩)
      · exact absurd h (by rw [String.lt_iff_toList_lt]; decide)
      · exact absurd h (by decide)
    have hc2 : ¬ exLE eA40 eA90 := by
      unfold exLE
      dsimp only [eA40, eA90]
      rintro (h | ⟨-, h | ⟨h, -⟩⟩)
      · exact absurd h (lt_irrefl _)
      · exact absurd h (by norm_num)
      · exact absurd h (by norm_num)
    have hc3 : exLE eA40 eB95 := by
      unfold exLE
      dsimp only [eA40, eB95]
      exact Or.inl (by rw [String.lt_iff_toList_lt]; decide)
    unfold compile_exceptions
    rw [if_neg hguard, hrecs]
    simp only [List.insertionSort, List.orderedInsert]
    rw [if_neg hc1]
    simp only [List.orderedInsert]
    rw [if_neg hc2, if_pos hc3]
    rfl

/- ---------------------------------------------------------------------------
   src/src/utils/date_calculator.py and src/src/utils/weekday_converter.py
   --------------------------------------------------------------------------- -/

/-- Dates are modelled as whole day numbers with day 0 = 1970-01-01. This is
    the standard days-from-civil calendar algorithm, used to state concrete
    calendar dates. -/
def civilToDays (y m d : ℕ) : ℤ :=
  let yAdj := if m ≤ 2 then y - 1 else y
  let era := yAdj / 400
  let yoe := yAdj % 400
  let mp := if 2 < m then m - 3 else m + 9
  let doy := (153 * mp + 2) / 5 + d - 1
  let doe := yoe * 365 + yoe / 4 - yoe / 100 + doy
  (era * 146097 + doe : ℤ) - 719468

/-- Python datetime.weekday (Monday = 0) of a day number: day 0 = 1970-01-01
    was a Thursday (weekday 3). -/
def pythonWeekday (d : ℤ) : ℤ := (d + 3) % 7

/-- The inline conversion in date_calculator.py _find_most_recent_data_day:
    target day 1 (Sunday) becomes Python weekday 6, any other target day
    becomes target day minus 2. -/
def dataDayToPythonWeekday (targetDay : ℤ) : ℤ :=
  if targetDay = 1 then 6 else targetDay - 2

/-- date_calculator.py _find_most_recent_data_day: the latest date falling on
    the target day of week, or the latest date overall when none matches. -/
def find_most_recent_data_day (dates : List ℤ) (targetDay : ℤ) : ℤ :=
  let pythonTargetDay := dataDayToPythonWeekday targetDay
  let matching := dates.filter (fun d => decide (pythonWeekday d =
    pythonTargetDay))
  if matching = [] then listMaxZ dates
  else listMaxZ matching

/-- date_calculator.py calculate_analysis_date_range. The dates list is the
    HOURS_DATE column; hasDateColumn models the presence of that column; now
    models datetime.now(), used only on the degenerate paths. Overrides are
    already-parsed dates; Python uses the dynamic path unless both overrides
    are truthy. -/
def calculate_analysis_date_range (dates : List ℤ) (cv : ControlVariables)
    (startOverride endOverride : Option ℤ) (now : ℤ) (hasDateColumn : Bool) :
    ℤ × ℤ :=
  match startOverride, endOverride with
  | some s, some e => (s, e)
  | _, _ =>
    if dates = [] then (now, now)
    else if hasDateColumn = false then (now, now)
    else
      let mostRecent := listMaxZ dates
      let periodEnd := if cv.useDataDay then
          find_most_recent_data_day dates cv.newDataDay
        else mostRecent - cv.daysToDrop
      (periodEnd - (cv.daysToProcess - 1), periodEnd)

/- ---------------------------------------------------------------------------
   Claim C9 - the dynamic date window with use_data_day = false
   --------------------------------------------------------------------------- -/

/-- Claim C9: in the dynamic path with use_data_day false, no overrides, a
    nonempty dataset and a date column, the analysis end date is the most
    recent date minus days_to_drop, the start date is the end date minus
    (days_to_process - 1), and the window spans exactly days_to_process days
    inclusive; concretely, most recent date 2025-05-31 with days_to_drop 7
    and days_to_process 84 gives end 2025-05-24 and start 2025-03-02. -/
theorem C9_dynamic_date_window :
    (∀ (dates : List ℤ) (cv : ControlVariables) (now : ℤ),
      dates ≠ [] → cv.useDataDay = false →
      (calculate_analysis_date_range dates cv none none now true).2 =
        listMaxZ dates - cv.daysToDrop ∧
      (calculate_analysis_date_range dates cv none none now true).1 =
        (calculate_analysis_date_range dates cv none none now true).2 -
          (cv.daysToProcess - 1) ∧
      (calculate_analysis_date_range dates cv none none now true).2 -
          (calculate_analysis_date_range dates cv none none now true).1 + 1 =
        cv.daysToProcess) ∧
    calculate_analysis_date_range [civilToDays 2025 5 31] cvFifteen none none
        0 true =
      (civilToDays 2025 3 2, civilToDays 2025 5 24) := by
  constructor
  · intro dates cv now hne hdd
    unfold calculate_analysis_date_range
    rw [if_neg hne, if_neg (by simp)]
    dsimp only
    rw [hdd]
    refine ⟨rfl, rfl, ?_⟩
    dsimp only
    ring
  · decide

/-- Witness for C9 at the concrete single-date dataset 2025-05-31. -/
theorem C9_witness :
    (calculate_analysis_date_range [civilToDays 2025 5 31] cvFifteen none
        none 0 true).2 =
      listMaxZ [civilToDays 2025 5 31] - cvFifteen.daysToDrop ∧
    (calculate_analysis_date_range [civilToDays 2025 5 31] cvFifteen none
        none 0 true).1 =
      (calculate_analysis_date_range [civilToDays 2025 5 31] cvFifteen none
        none 0 true).2 - (cvFifteen.daysToProcess - 1) ∧
    (calculate_analysis_date_range [civilToDays 2025 5 31] cvFifteen none
        none 0 true).2 -
      (calculate_analysis_date_range [civilToDays 2025 5 31] cvFifteen none
        none 0 true).1 + 1 = cvFifteen.daysToProcess :=
  C9_dynamic_date_window.1 [civilToDays 2025 5 31] cvFifteen 0 (by decide)
    (by decide)

/- ---------------------------------------------------------------------------
   Claim C10 - the inline weekday conversion agrees with the shared table
   --------------------------------------------------------------------------- -/

/-- weekday_converter.py MODEL_TO_PYTHON_WEEKDAY dictionary lookup. -/
def MODEL_TO_PYTHON_WEEKDAY (d : ℤ) : Option ℤ :=
  if d = 1 then some 6
  else if d = 2 then some 0
  else if d = 3 then some 1
  else if d = 4 then some 2
  else if d = 5 then some 3
  else if d = 6 then some 4
  else if d = 7 then some 5
  else none

/-- weekday_converter.py model_to_python_weekday: the table lookup, where
    none models the ValueError raised on a day outside 1-7. -/
def model_to_python_weekday (modelDay : ℤ) : Option ℤ :=
  MODEL_TO_PYTHON_WEEKDAY modelDay

/-- Claim C10: for every target day 1..7, the inline conversion of
    _find_most_recent_data_day agrees with the shared conversion table and
    with model_to_python_weekday, so the date resolver and the converter
    agree on the Sunday=1 convention for all 7 inputs. -/
theorem C10_weekday_conversions_agree (d : ℤ) (h1 : 1 ≤ d) (h7 : d ≤ 7) :
    MODEL_TO_PYTHON_WEEKDAY d = some (dataDayToPythonWeekday d) ∧
    model_to_python_weekday d = some (dataDayToPythonWeekday d) := by
  interval_cases d <;> exact ⟨rfl, rfl⟩

/-- Witness for C10 at target day 1 (Sunday). -/
theorem C10_witness :
    MODEL_TO_PYTHON_WEEKDAY 1 = some (dataDayToPythonWeekday 1) ∧
    model_to_python_weekday 1 = some (dataDayToPythonWeekday 1) :=
  C10_weekday_conversions_agree 1 (by norm_num) (by norm_num)

end Workforce
